import Mathlib

/-!
Shallow embedding of the breath-measurement core of
`src/sketch_dec17a/sketch_dec17a.ino` (a low-cost spirometer sketch).

Floats are modelled as exact rationals (`ℚ`); the C `sqrt` is an abstract
parameter `sq : ℚ → ℚ` constrained by `SqrtSpec` (non-negative, and positive
on positive arguments), which the real square root satisfies.  Milliseconds
(`millis()`) are modelled as one natural-number timestamp per loop iteration.
Display and button I/O are out of scope; the call to `showResultsWindow` is
modelled as the emission of a `Summary` value.
-/

namespace Spirometer

/-- `const float START_THRESHOLD = 2.0;` -/
def START_THRESHOLD : ℚ := 2

/-- `const float CUTOFF_THRESHOLD = 1.0;` -/
def CUTOFF_THRESHOLD : ℚ := 1

/-- `const int BREATH_TIMEOUT = 1000;` (ms) -/
def BREATH_TIMEOUT : ℕ := 1000

/-- The deadzone bound `5.4` from `if (adjustedValue < 5.4)`. -/
def DEADZONE_THRESHOLD : ℚ := 27/5

/-- `float alpha = 0.1;` -/
def smoothingAlpha : ℚ := 1/10

/-- `float k_constant = 46.5;` -/
def k_constant : ℚ := 93/2

/-- `float VOLUME_SCALER = 1.7;` -/
def VOLUME_SCALER : ℚ := 17/10

/-- The mutable globals of the sketch that the core pipeline touches. -/
structure SpiroState where
  filteredValue : ℚ
  previousMillis : ℕ
  breathStopTimer : ℕ
  currentVol : ℚ
  peakFlow : ℚ
  previousFlow : ℚ
  isBreathing : Bool
deriving Repr, DecidableEq

/-- State at the end of `setup()`: all signal state zero, clock baseline `t0`. -/
def initState (t0 : ℕ) : SpiroState :=
  ⟨0, t0, 0, 0, 0, 0, false⟩

/-- Finalized breath payload handed to `showResultsWindow`. -/
structure Summary where
  peakFlow : ℚ
  volume : ℚ
deriving Repr, DecidableEq

/-- Interface the abstract square root must satisfy (true of the real one). -/
structure SqrtSpec (sq : ℚ → ℚ) : Prop where
  nonneg : ∀ x, 0 ≤ sq x
  pos : ∀ x, 0 < x → 0 < sq x

/-- Steps 2–3 of `loop`: subtract the offset, apply the deadzone, smooth:
`adjustedValue = rawValue - sensorOffset; if (adjustedValue < 5.4) adjustedValue = 0;
filteredValue = (filteredValue * (1.0 - alpha)) + (adjustedValue * alpha);` -/
def conditioned (offset prev raw : ℚ) : ℚ :=
  let adjustedValue := raw - offset
  let adjustedValue2 := if adjustedValue < DEADZONE_THRESHOLD then 0 else adjustedValue
  prev * (1 - smoothingAlpha) + adjustedValue2 * smoothingAlpha

/-- `float voltage = filteredValue * (5.0 / 1023.0);` -/
def voltage (filtered : ℚ) : ℚ := filtered * (5 / 1023)

/-- `float pressurePa = (voltage / 0.45) * 1000.0;` -/
def pressurePa (filtered : ℚ) : ℚ := voltage filtered / (9/20) * 1000

/-- `float flowRate = 0; if (pressurePa > 0) flowRate = k_constant * sqrt(pressurePa / 1000.0);` -/
def flowRate (sq : ℚ → ℚ) (filtered : ℚ) : ℚ :=
  if 0 < pressurePa filtered then k_constant * sq (pressurePa filtered / 1000) else 0

/-- The flow rate computed on a tick, from the stored filter state and the raw sample. -/
def tickFlow (sq : ℚ → ℚ) (offset : ℚ) (s : SpiroState) (raw : ℚ) : ℚ :=
  flowRate sq (conditioned offset s.filteredValue raw)

/-- `float dt = (currentMillis - previousMillis) / 1000.0;` (unsigned, monotone clock). -/
def dtSeconds (s : SpiroState) (now : ℕ) : ℚ := ((now - s.previousMillis : ℕ) : ℚ) / 1000

/-- One iteration of `loop()` given the raw ADC sample and the `millis()` timestamp
of the iteration.  Returns the next state and the emitted breath summary, if any
(`showResultsWindow` is the emission; its trailing `filteredValue = 0;
previousFlow = 0;` writes are subsumed by the resets that follow the call). -/
def step (sq : ℚ → ℚ) (offset : ℚ) (s : SpiroState) (raw : ℚ) (now : ℕ) :
    SpiroState × Option Summary :=
  let dt := dtSeconds s now
  let filtered := conditioned offset s.filteredValue raw
  let flow := flowRate sq filtered
  -- 5. Volume Integration (start detection and peak tracking)
  let breathing1 := if START_THRESHOLD < flow then true else s.isBreathing
  let stopTimer1 := if START_THRESHOLD < flow then now else s.breathStopTimer
  let peak1 := if START_THRESHOLD < flow ∧ s.peakFlow < flow then flow else s.peakFlow
  let vol1 := if breathing1 = true ∧ CUTOFF_THRESHOLD < flow then
      s.currentVol + ((flow + s.previousFlow) / 2 / 60 * dt) * VOLUME_SCALER
    else s.currentVol
  -- 6. Stop Logic
  if breathing1 = true ∧ flow ≤ CUTOFF_THRESHOLD ∧ BREATH_TIMEOUT < now - stopTimer1 then
    (⟨0, now, stopTimer1, 0, 0, 0, false⟩, some ⟨peak1, vol1⟩)
  else
    (⟨filtered, now, stopTimer1, vol1, peak1, flow, breathing1⟩, none)

/-- The condition under which a tick ends the breath, phrased on the incoming state. -/
def stopCond (sq : ℚ → ℚ) (offset : ℚ) (s : SpiroState) (raw : ℚ) (now : ℕ) : Prop :=
  s.isBreathing = true ∧ tickFlow sq offset s raw ≤ CUTOFF_THRESHOLD ∧
    BREATH_TIMEOUT < now - s.breathStopTimer

instance (sq : ℚ → ℚ) (offset : ℚ) (s : SpiroState) (raw : ℚ) (now : ℕ) :
    Decidable (stopCond sq offset s raw now) := by
  unfold stopCond; infer_instance

/-- Run a list of ticks, collecting the final state and every emitted summary. -/
def runTrace (sq : ℚ → ℚ) (offset : ℚ) :
    SpiroState → List (ℚ × ℕ) → SpiroState × List Summary
  | s, [] => (s, [])
  | s, i :: rest =>
    let r := step sq offset s i.1 i.2
    let t := runTrace sq offset r.1 rest
    (t.1, r.2.toList ++ t.2)

/-- Every state the run passes through (including the initial and final ones). -/
def stateTrace (sq : ℚ → ℚ) (offset : ℚ) :
    SpiroState → List (ℚ × ℕ) → List SpiroState
  | s, [] => [s]
  | s, i :: rest => s :: stateTrace sq offset (step sq offset s i.1 i.2).1 rest

/-- The flow rate computed at each tick of a run. -/
def tickFlows (sq : ℚ → ℚ) (offset : ℚ) :
    SpiroState → List (ℚ × ℕ) → List ℚ
  | _, [] => []
  | s, i :: rest =>
    tickFlow sq offset s i.1 :: tickFlows sq offset (step sq offset s i.1 i.2).1 rest

/-- A concrete function satisfying `SqrtSpec`, used to instantiate witnesses. -/
def sqApprox (x : ℚ) : ℚ := if x < 0 then 0 else x

/-- Second definition written from the spec's words (§4.3), for refinement
comparison with `flowRate`: `voltage = filtered * (Vref / ADC_MAX)`,
`pressure_Pa = (voltage / SENSOR_SENSITIVITY) * 1000`,
`flow = K * sqrt(pressure_Pa / 1000)` when `pressure_Pa > 0`, else `flow = 0`,
with `K = 46.5`, `Vref = 5.0`, `ADC_MAX = 1023`, sensitivity `0.45`. -/
def flowRate_specChain (sq : ℚ → ℚ) (filtered : ℚ) : ℚ :=
  let Vref : ℚ := 5
  let ADC_MAX : ℚ := 1023
  let SENSOR_SENSITIVITY : ℚ := 45/100
  let K : ℚ := 465/10
  let v := filtered * (Vref / ADC_MAX)
  let pPa := v / SENSOR_SENSITIVITY * 1000
  if 0 < pPa then K * sq (pPa / 1000) else 0

/-- Second definition written from the spec's words (§4.5), for comparison with
the volume update in `step`: `avgFlow = (flow + previousFlow) / 2`;
`deltaVolume = (avgFlow / 60) * dtSeconds * volumeScaler`. -/
def integrate (flow previousFlow dtSec volumeScaler : ℚ) : ℚ :=
  let avgFlow := (flow + previousFlow) / 2
  avgFlow / 60 * dtSec * volumeScaler

/-- Invariant used for the volume bound: volume and stored previous flow are
non-negative. -/
def GoodState (s : SpiroState) : Prop := 0 ≤ s.currentVol ∧ 0 ≤ s.previousFlow

/-- A run whose flow rises above the start threshold once (first tick) and then
decays through the band `(CUTOFF_THRESHOLD, START_THRESHOLD]` for the next six
ticks, 200 ms apart.  Offset 0; the square root is instantiated by `sqApprox`. -/
def bandRunInputs : List (ℚ × ℕ) :=
  [(41, 200), (0, 400), (0, 600), (0, 800), (0, 1000), (0, 1200), (0, 1400)]

/-- The three `millis()` reads of one core loop iteration: `tDt` is
`currentMillis` (used for `dt` and to rebase `previousMillis`), `tStart` is the
read stored into `breathStopTimer` when flow exceeds the start threshold, and
`tStop` is the read used in the timeout comparison of the stop logic.  On real
hardware they are read in this order, so `tDt ≤ tStart ≤ tStop`. -/
structure TickTimes where
  tDt : ℕ
  tStart : ℕ
  tStop : ℕ
deriving Repr, DecidableEq

/-- One iteration of `loop()` with the three `millis()` reads modelled as
separate timestamps (the display read and the post-acknowledge rebase inside
`showResultsWindow` remain out of scope, as in `step`).  `step` is the special
case in which the three reads coincide. -/
def stepMulti (sq : ℚ → ℚ) (offset : ℚ) (s : SpiroState) (raw : ℚ) (t : TickTimes) :
    SpiroState × Option Summary :=
  let dt := dtSeconds s t.tDt
  let filtered := conditioned offset s.filteredValue raw
  let flow := flowRate sq filtered
  let breathing1 := if START_THRESHOLD < flow then true else s.isBreathing
  let stopTimer1 := if START_THRESHOLD < flow then t.tStart else s.breathStopTimer
  let peak1 := if START_THRESHOLD < flow ∧ s.peakFlow < flow then flow else s.peakFlow
  let vol1 := if breathing1 = true ∧ CUTOFF_THRESHOLD < flow then
      s.currentVol + ((flow + s.previousFlow) / 2 / 60 * dt) * VOLUME_SCALER
    else s.currentVol
  if breathing1 = true ∧ flow ≤ CUTOFF_THRESHOLD ∧ BREATH_TIMEOUT < t.tStop - stopTimer1 then
    (⟨0, t.tDt, stopTimer1, 0, 0, 0, false⟩, some ⟨peak1, vol1⟩)
  else
    (⟨filtered, t.tDt, stopTimer1, vol1, peak1, flow, breathing1⟩, none)

/-- Run a list of ticks under the multi-read clock model. -/
def runTraceMulti (sq : ℚ → ℚ) (offset : ℚ) :
    SpiroState → List (ℚ × TickTimes) → SpiroState × List Summary
  | s, [] => (s, [])
  | s, i :: rest =>
    let r := stepMulti sq offset s i.1 i.2
    let t := runTraceMulti sq offset r.1 rest
    (t.1, r.2.toList ++ t.2)

/-- The band run with every read of every tick at the tick's own time. -/
def jitterInputsA : List (ℚ × TickTimes) :=
  [(41, ⟨150, 150, 150⟩), (0, ⟨300, 300, 300⟩), (0, ⟨450, 450, 450⟩),
   (0, ⟨600, 600, 600⟩), (0, ⟨750, 750, 750⟩), (0, ⟨900, 900, 900⟩),
   (0, ⟨1050, 1050, 1050⟩), (0, ⟨1145, 1145, 1145⟩)]

/-- The same run, except that on the final tick the stop-logic `millis()` read
happens 10 ms after the dt read (a slow iteration), crossing the timeout
boundary. -/
def jitterInputsB : List (ℚ × TickTimes) :=
  [(41, ⟨150, 150, 150⟩), (0, ⟨300, 300, 300⟩), (0, ⟨450, 450, 450⟩),
   (0, ⟨600, 600, 600⟩), (0, ⟨750, 750, 750⟩), (0, ⟨900, 900, 900⟩),
   (0, ⟨1050, 1050, 1050⟩), (0, ⟨1145, 1145, 1155⟩)]

lemma pressurePa_eq (f : ℚ) : pressurePa f = f * (100000/9207) := by
  unfold pressurePa voltage
  ring

lemma pressurePa_nonneg {f : ℚ} (h : 0 ≤ f) : 0 ≤ pressurePa f := by
  rw [pressurePa_eq]
  positivity

lemma pressurePa_pos_iff (f : ℚ) : 0 < pressurePa f ↔ 0 < f := by
  rw [pressurePa_eq]
  constructor
  · intro h
    by_contra hf
    push_neg at hf
    nlinarith
  · intro h
    positivity

lemma flowRate_nonneg {sq : ℚ → ℚ} (hsq : SqrtSpec sq) (f : ℚ) : 0 ≤ flowRate sq f := by
  unfold flowRate
  split
  · have h := hsq.nonneg (pressurePa f / 1000)
    unfold k_constant
    positivity
  · exact le_refl 0

lemma flowRate_pos_of_pos {sq : ℚ → ℚ} (hsq : SqrtSpec sq) {f : ℚ} (h : 0 < f) :
    0 < flowRate sq f := by
  have hp : 0 < pressurePa f := (pressurePa_pos_iff f).mpr h
  unfold flowRate
  rw [if_pos hp]
  have hs := hsq.pos (pressurePa f / 1000) (by positivity)
  unfold k_constant
  positivity

lemma flowRate_eq_zero_iff {sq : ℚ → ℚ} (hsq : SqrtSpec sq) (f : ℚ) :
    flowRate sq f = 0 ↔ f ≤ 0 := by
  constructor
  · intro h
    by_contra hf
    push_neg at hf
    exact absurd h (ne_of_gt (flowRate_pos_of_pos hsq hf))
  · intro h
    unfold flowRate
    rw [if_neg]
    rw [pressurePa_pos_iff]
    exact not_lt.mpr h

lemma conditioned_nonneg (offset raw : ℚ) {prev : ℚ} (h : 0 ≤ prev) :
    0 ≤ conditioned offset prev raw := by
  simp only [conditioned, DEADZONE_THRESHOLD, smoothingAlpha]
  split
  · linarith
  · rename_i hge
    push_neg at hge
    nlinarith

lemma conditioned_deadzone (offset : ℚ) {raw : ℚ} (prev : ℚ)
    (h : raw - offset < DEADZONE_THRESHOLD) :
    conditioned offset prev raw = prev * (9/10) := by
  simp only [conditioned, if_pos h, smoothingAlpha]
  ring

lemma cutoff_lt_start : CUTOFF_THRESHOLD < START_THRESHOLD := by
  unfold CUTOFF_THRESHOLD START_THRESHOLD
  norm_num

/-- Shape of a tick whose flow is at or below the cutoff: nothing but the stop
logic can fire, and it fires exactly on `stopCond`. -/
lemma step_low {sq : ℚ → ℚ} {offset : ℚ} {s : SpiroState} {raw : ℚ} (now : ℕ)
    (h : tickFlow sq offset s raw ≤ CUTOFF_THRESHOLD) :
    step sq offset s raw now =
      if stopCond sq offset s raw now then
        (⟨0, now, s.breathStopTimer, 0, 0, 0, false⟩, some ⟨s.peakFlow, s.currentVol⟩)
      else
        (⟨conditioned offset s.filteredValue raw, now, s.breathStopTimer, s.currentVol,
          s.peakFlow, tickFlow sq offset s raw, s.isBreathing⟩, none) := by
  simp only [tickFlow] at h
  have hns : ¬ START_THRESHOLD < flowRate sq (conditioned offset s.filteredValue raw) := by
    have := cutoff_lt_start
    push_neg
    linarith
  have hnc : ¬ CUTOFF_THRESHOLD < flowRate sq (conditioned offset s.filteredValue raw) :=
    not_lt.mpr h
  simp only [step, stopCond, tickFlow, hns, hnc, if_false, false_and, and_false, if_neg,
    not_false_eq_true, ite_false, h, and_true, true_and]

/-- Shape of a tick whose flow is above the cutoff: the stop logic cannot fire. -/
lemma step_high {sq : ℚ → ℚ} {offset : ℚ} {s : SpiroState} {raw : ℚ} (now : ℕ)
    (h : CUTOFF_THRESHOLD < tickFlow sq offset s raw) :
    step sq offset s raw now =
      (⟨conditioned offset s.filteredValue raw, now,
        (if START_THRESHOLD < tickFlow sq offset s raw then now else s.breathStopTimer),
        (if (START_THRESHOLD < tickFlow sq offset s raw ∨ s.isBreathing = true) then
          s.currentVol +
            ((tickFlow sq offset s raw + s.previousFlow) / 2 / 60 * dtSeconds s now) *
              VOLUME_SCALER
         else s.currentVol),
        (if START_THRESHOLD < tickFlow sq offset s raw ∧ s.peakFlow < tickFlow sq offset s raw
          then tickFlow sq offset s raw else s.peakFlow),
        tickFlow sq offset s raw,
        (if START_THRESHOLD < tickFlow sq offset s raw then true else s.isBreathing)⟩, none) := by
  simp only [tickFlow] at h ⊢
  have hnl : ¬ flowRate sq (conditioned offset s.filteredValue raw) ≤ CUTOFF_THRESHOLD :=
    not_le.mpr h
  simp only [step, hnl, and_false, false_and, if_false, ite_false, h, and_true, true_and,
    not_false_eq_true]
  by_cases hs : START_THRESHOLD < flowRate sq (conditioned offset s.filteredValue raw)
  · simp [hs]
  · simp [hs]

theorem sqApprox_spec : SqrtSpec sqApprox := by
  refine ⟨fun x => ?_, fun x hx => ?_⟩
  · unfold sqApprox
    split
    · exact le_refl 0
    · exact le_of_not_lt (by assumption)
  · unfold sqApprox
    rw [if_neg (not_lt.mpr hx.le)]
    exact hx

/-- C3: the implemented flow conversion agrees with the spec's conversion chain,
is never negative, and maps non-positive pressure to exactly zero flow. -/
theorem spec_C3_flow_conversion {sq : ℚ → ℚ} (hsq : SqrtSpec sq) (filtered : ℚ) :
    flowRate sq filtered = flowRate_specChain sq filtered ∧
    0 ≤ flowRate sq filtered ∧
    (pressurePa filtered ≤ 0 → flowRate sq filtered = 0) := by
  refine ⟨?_, flowRate_nonneg hsq filtered, ?_⟩
  · have harg : filtered * (5 / 1023) / (45/100) * 1000 = pressurePa filtered := by
      unfold pressurePa voltage
      ring
    simp only [flowRate_specChain, harg, flowRate, k_constant]
    norm_num
  · intro h
    unfold flowRate
    rw [if_neg (not_lt.mpr h)]

/-- Witness for C3 at a concrete square-root model and input. -/
theorem spec_C3_flow_conversion_witness :
    flowRate sqApprox 100 = flowRate_specChain sqApprox 100 ∧
    0 ≤ flowRate sqApprox 100 ∧
    (pressurePa 100 ≤ 0 → flowRate sqApprox 100 = 0) :=
  spec_C3_flow_conversion sqApprox_spec 100

/-- C2 (amended): on a deadzone-forced tick the computed flow is zero exactly
when the previous smoothed value was already ≤ 0; a positive residue in the
filter still yields a positive flow on that tick. -/
theorem spec_C2_deadzone_flow {sq : ℚ → ℚ} (hsq : SqrtSpec sq) (offset : ℚ)
    (s : SpiroState) (raw : ℚ) (hdz : raw - offset < DEADZONE_THRESHOLD) :
    tickFlow sq offset s raw = 0 ↔ s.filteredValue ≤ 0 := by
  unfold tickFlow
  rw [conditioned_deadzone offset s.filteredValue hdz]
  rw [flowRate_eq_zero_iff hsq]
  constructor
  · intro h
    nlinarith
  · intro h
    nlinarith

/-- Witness for the amended C2 at a concrete input. -/
theorem spec_C2_deadzone_flow_witness :
    tickFlow sqApprox 0 (initState 0) 0 = 0 ↔ (initState 0).filteredValue ≤ 0 :=
  spec_C2_deadzone_flow sqApprox_spec 0 (initState 0) 0
    (by unfold DEADZONE_THRESHOLD; norm_num)

/-- C2 as stated is false: after a tick that leaves a residue of 10 in the
filter, a deadzone-forced sample (raw 3, offset 0, so adjusted is forced to 0)
still produces a nonzero flow on that same tick. -/
theorem spec_C2_counterexample :
    ((3:ℚ) - 0 < DEADZONE_THRESHOLD) ∧
    ((step sqApprox 0 (initState 0) 100 100).1).filteredValue = 10 ∧
    tickFlow sqApprox 0 ((step sqApprox 0 (initState 0) 100 100).1) 3 ≠ 0 := by
  with_unfolding_all decide

/-- C4: a summary is emitted exactly when the breath-end condition holds, the
emitted payload is the pre-tick `{peakFlow, currentVol}`, and that transition
(and only it) zeroes `peakFlow`, `currentVol`, the filtered signal and
`previousFlow` and returns to Idle. -/
theorem spec_C4_breath_end_frame (sq : ℚ → ℚ) (offset : ℚ) (s : SpiroState) (raw : ℚ)
    (now : ℕ) :
    ((step sq offset s raw now).2 ≠ none ↔ stopCond sq offset s raw now) ∧
    (stopCond sq offset s raw now →
      (step sq offset s raw now).2 = some ⟨s.peakFlow, s.currentVol⟩ ∧
      ((step sq offset s raw now).1).peakFlow = 0 ∧
      ((step sq offset s raw now).1).currentVol = 0 ∧
      ((step sq offset s raw now).1).filteredValue = 0 ∧
      ((step sq offset s raw now).1).previousFlow = 0 ∧
      ((step sq offset s raw now).1).isBreathing = false) := by
  by_cases hf : CUTOFF_THRESHOLD < tickFlow sq offset s raw
  · have hns : ¬ stopCond sq offset s raw now := fun hc => absurd hc.2.1 (not_le.mpr hf)
    rw [step_high now hf]
    simp [hns]
  · rw [step_low now (not_lt.mp hf)]
    by_cases hc : stopCond sq offset s raw now
    · rw [if_pos hc]
      simp [hc]
    · rw [if_neg hc]
      simp [hc]

/-- Witness for C4: a concrete breath-end tick emits the held peak and volume
and zeroes the session state. -/
theorem spec_C4_breath_end_frame_witness :
    (step sqApprox 0 ⟨1, 0, 0, 2, 7, 0, true⟩ 0 1500).2 = some ⟨7, 2⟩ ∧
    ((step sqApprox 0 ⟨1, 0, 0, 2, 7, 0, true⟩ 0 1500).1).peakFlow = 0 := by
  have h := spec_C4_breath_end_frame sqApprox 0 ⟨1, 0, 0, 2, 7, 0, true⟩ 0 1500
  have hc : stopCond sqApprox 0 ⟨1, 0, 0, 2, 7, 0, true⟩ 0 1500 := by
    with_unfolding_all decide
  exact ⟨(h.2 hc).1, (h.2 hc).2.1⟩

/-- C7: on every tick that does not end the breath, `peakFlow` does not
decrease, and it can only be 0 afterwards if it already was 0. -/
theorem spec_C7_peak_monotone (sq : ℚ → ℚ) (offset : ℚ) (s : SpiroState) (raw : ℚ)
    (now : ℕ) (h : (step sq offset s raw now).2 = none) :
    s.peakFlow ≤ ((step sq offset s raw now).1).peakFlow ∧
    (((step sq offset s raw now).1).peakFlow = 0 → s.peakFlow = 0) := by
  by_cases hf : CUTOFF_THRESHOLD < tickFlow sq offset s raw
  · rw [step_high now hf]
    simp only
    split_ifs with hpk
    · exact ⟨le_of_lt hpk.2, fun h0 => by
        have : (0:ℚ) < CUTOFF_THRESHOLD := by unfold CUTOFF_THRESHOLD; norm_num
        linarith⟩
    · exact ⟨le_refl _, fun h0 => h0⟩
  · rw [step_low now (not_lt.mp hf)] at h ⊢
    by_cases hc : stopCond sq offset s raw now
    · rw [if_pos hc] at h
      exact absurd h (by simp)
    · rw [if_neg hc]
      exact ⟨le_refl _, fun h0 => h0⟩

/-- Witness for C7 at a concrete non-ending tick that raises the peak. -/
theorem spec_C7_peak_monotone_witness :
    (initState 0).peakFlow ≤ ((step sqApprox 0 (initState 0) 41 200).1).peakFlow :=
  (spec_C7_peak_monotone sqApprox 0 (initState 0) 41 200 (by with_unfolding_all decide)).1

/-- C5 (amended): the accumulated volume is increased by exactly the spec's
trapezoidal increment `integrate` when the (possibly just-updated) breathing
flag is set and flow exceeds the cutoff; it is unchanged on every other tick
except a breath-end tick, which resets it to 0. -/
theorem spec_C5_volume_update (sq : ℚ → ℚ) (offset : ℚ) (s : SpiroState) (raw : ℚ)
    (now : ℕ) :
    ((step sq offset s raw now).1).currentVol =
      if stopCond sq offset s raw now then 0
      else if (s.isBreathing = true ∨ START_THRESHOLD < tickFlow sq offset s raw) ∧
              CUTOFF_THRESHOLD < tickFlow sq offset s raw then
        s.currentVol +
          integrate (tickFlow sq offset s raw) s.previousFlow (dtSeconds s now) VOLUME_SCALER
      else s.currentVol := by
  by_cases hf : CUTOFF_THRESHOLD < tickFlow sq offset s raw
  · have hns : ¬ stopCond sq offset s raw now := fun hc => absurd hc.2.1 (not_le.mpr hf)
    rw [step_high now hf, if_neg hns]
    simp only [integrate]
    split_ifs with h1 h2 <;> (first | ring1 | tauto)
  · rw [step_low now (not_lt.mp hf)]
    by_cases hc : stopCond sq offset s raw now
    · rw [if_pos hc, if_pos hc]
    · rw [if_neg hc, if_neg hc, if_neg (fun h => absurd h.2 hf)]

set_option maxRecDepth 100000 in
/-- C5 as stated is false on breath-end ticks: in the band run the accumulated
volume is positive and the integration guard is off on the final tick (flow is
at the cutoff or below), yet the volume still changes — it is reset to 0. -/
theorem spec_C5_counterexample :
    0 < ((runTrace sqApprox 0 (initState 0) bandRunInputs).1).currentVol ∧
    ¬ CUTOFF_THRESHOLD <
        tickFlow sqApprox 0 ((runTrace sqApprox 0 (initState 0) bandRunInputs).1) 0 ∧
    ((step sqApprox 0 ((runTrace sqApprox 0 (initState 0) bandRunInputs).1) 0 1600).1).currentVol ≠
      ((runTrace sqApprox 0 (initState 0) bandRunInputs).1).currentVol := by
  with_unfolding_all decide

/-- C1 (amended): from a Breathing state, the tick returns to Idle exactly when
the flow is at or below the cutoff AND more than `BREATH_TIMEOUT` has elapsed
since `breathStopTimer`; and `breathStopTimer` is rebased to the current time
exactly on ticks whose flow exceeds `START_THRESHOLD` (not on ticks where the
flow merely drops to the cutoff). -/
theorem spec_C1_stop_timing (sq : ℚ → ℚ) (offset : ℚ) (s : SpiroState) (raw : ℚ)
    (now : ℕ) (hb : s.isBreathing = true) :
    (((step sq offset s raw now).1).isBreathing = false ↔
      (tickFlow sq offset s raw ≤ CUTOFF_THRESHOLD ∧
        BREATH_TIMEOUT < now - s.breathStopTimer)) ∧
    (START_THRESHOLD < tickFlow sq offset s raw →
      ((step sq offset s raw now).1).breathStopTimer = now) ∧
    (tickFlow sq offset s raw ≤ START_THRESHOLD →
      ((step sq offset s raw now).1).breathStopTimer = s.breathStopTimer) := by
  by_cases hf : CUTOFF_THRESHOLD < tickFlow sq offset s raw
  · rw [step_high now hf]
    refine ⟨?_, ?_, ?_⟩
    · simp [hb, not_le.mpr hf]
    · intro hs
      simp [hs]
    · intro hs
      simp [not_lt.mpr hs]
  · have hle := not_lt.mp hf
    have hnstart : ¬ START_THRESHOLD < tickFlow sq offset s raw := by
      have := cutoff_lt_start
      push_neg
      linarith
    rw [step_low now hle]
    by_cases hc : stopCond sq offset s raw now
    · rw [if_pos hc]
      exact ⟨by simp [hle, hc.2.2], fun hs => absurd hs hnstart, fun _ => rfl⟩
    · rw [if_neg hc]
      refine ⟨?_, fun hs => absurd hs hnstart, fun _ => rfl⟩
      simp only [hb, hle, true_and, true_iff, iff_false]
      constructor
      · intro h01
        exact absurd h01 (by simp)
      · intro ht
        exact (hc ⟨hb, hle, ht⟩).elim

/-- Witness for the amended C1: a concrete Breathing state with zero flow and
expired timer transitions to Idle, matching the characterization. -/
theorem spec_C1_stop_timing_witness :
    ((step sqApprox 0 ⟨0, 0, 0, 0, 0, 0, true⟩ 0 1500).1).isBreathing = false ↔
      (tickFlow sqApprox 0 ⟨0, 0, 0, 0, 0, 0, true⟩ 0 ≤ CUTOFF_THRESHOLD ∧
        BREATH_TIMEOUT < 1500 - (⟨0, 0, 0, 0, 0, 0, true⟩ : SpiroState).breathStopTimer) :=
  (spec_C1_stop_timing sqApprox 0 ⟨0, 0, 0, 0, 0, 0, true⟩ 0 1500 rfl).1

set_option maxRecDepth 100000 in
/-- C1 as stated is false: in the band run the flow stays strictly above the
cutoff through the tick at 1400 ms, so the first tick at which flow drops to
the cutoff or below is T = 1600 ms — and the state machine leaves Breathing on
that very tick, not at T + TIMEOUT, because the stop timer has measured from
the last above-start tick (200 ms). -/
theorem spec_C1_counterexample :
    ((runTrace sqApprox 0 (initState 0) bandRunInputs).1).isBreathing = true ∧
    (∀ f ∈ tickFlows sqApprox 0 (initState 0) bandRunInputs, CUTOFF_THRESHOLD < f) ∧
    tickFlow sqApprox 0 ((runTrace sqApprox 0 (initState 0) bandRunInputs).1) 0 ≤
      CUTOFF_THRESHOLD ∧
    ((step sqApprox 0 ((runTrace sqApprox 0 (initState 0) bandRunInputs).1) 0 1600).1).isBreathing
      = false ∧
    ((step sqApprox 0 ((runTrace sqApprox 0 (initState 0) bandRunInputs).1) 0 1600).2).isSome
      = true := by
  with_unfolding_all decide

lemma dtSeconds_nonneg (s : SpiroState) (now : ℕ) : 0 ≤ dtSeconds s now := by
  unfold dtSeconds
  positivity

lemma tickFlow_nonneg {sq : ℚ → ℚ} (hsq : SqrtSpec sq) (offset : ℚ) (s : SpiroState)
    (raw : ℚ) : 0 ≤ tickFlow sq offset s raw :=
  flowRate_nonneg hsq _

lemma step_good {sq : ℚ → ℚ} (hsq : SqrtSpec sq) (offset : ℚ) (s : SpiroState) (raw : ℚ)
    (now : ℕ) (h : GoodState s) : GoodState ((step sq offset s raw now).1) := by
  have hfl := tickFlow_nonneg hsq offset s raw
  have hdt := dtSeconds_nonneg s now
  by_cases hf : CUTOFF_THRESHOLD < tickFlow sq offset s raw
  · rw [step_high now hf]
    refine ⟨?_, hfl⟩
    simp only
    split_ifs
    · have hinc : 0 ≤ ((tickFlow sq offset s raw + s.previousFlow) / 2 / 60 *
          dtSeconds s now) * VOLUME_SCALER := by
        refine mul_nonneg (mul_nonneg ?_ hdt) (by unfold VOLUME_SCALER; norm_num)
        refine div_nonneg (div_nonneg ?_ (by norm_num)) (by norm_num)
        exact add_nonneg hfl h.2
      exact add_nonneg h.1 hinc
    · exact h.1
  · rw [step_low now (not_lt.mp hf)]
    split_ifs with hc
    · exact ⟨le_refl 0, le_refl 0⟩
    · exact ⟨h.1, hfl⟩

lemma trace_good {sq : ℚ → ℚ} (hsq : SqrtSpec sq) (offset : ℚ) :
    ∀ (inputs : List (ℚ × ℕ)) (s : SpiroState), GoodState s →
      ∀ st ∈ stateTrace sq offset s inputs, GoodState st := by
  intro inputs
  induction inputs with
  | nil =>
    intro s hs st hst
    simp only [stateTrace, List.mem_singleton] at hst
    exact hst ▸ hs
  | cons i rest ih =>
    intro s hs st hst
    simp only [stateTrace, List.mem_cons] at hst
    rcases hst with rfl | hmem
    · exact hs
    · exact ih _ (step_good hsq offset s i.1 i.2 hs) st hmem

/-- C6: after any sequence of ticks from the initial state, every state the run
passes through has a non-negative accumulated volume. -/
theorem spec_C6_volume_nonneg {sq : ℚ → ℚ} (hsq : SqrtSpec sq) (offset : ℚ) (t0 : ℕ)
    (inputs : List (ℚ × ℕ)) :
    ∀ st ∈ stateTrace sq offset (initState t0) inputs, 0 ≤ st.currentVol :=
  fun st hst =>
    (trace_good hsq offset inputs (initState t0) ⟨le_refl 0, le_refl 0⟩ st hst).1

/-- Witness for C6 after one concrete breathing tick. -/
theorem spec_C6_volume_nonneg_witness :
    0 ≤ ((step sqApprox 0 (initState 0) 41 200).1).currentVol :=
  spec_C6_volume_nonneg sqApprox_spec 0 0 [(41, 200)]
    ((step sqApprox 0 (initState 0) 41 200).1) (by simp [stateTrace])

lemma step_filtered_nonneg (sq : ℚ → ℚ) (offset : ℚ) (s : SpiroState) (raw : ℚ)
    (now : ℕ) (h : 0 ≤ s.filteredValue) :
    0 ≤ ((step sq offset s raw now).1).filteredValue := by
  by_cases hf : CUTOFF_THRESHOLD < tickFlow sq offset s raw
  · rw [step_high now hf]
    exact conditioned_nonneg offset raw h
  · rw [step_low now (not_lt.mp hf)]
    split_ifs
    · exact le_refl 0
    · exact conditioned_nonneg offset raw h

lemma trace_filtered_nonneg (sq : ℚ → ℚ) (offset : ℚ) :
    ∀ (inputs : List (ℚ × ℕ)) (s : SpiroState), 0 ≤ s.filteredValue →
      ∀ st ∈ stateTrace sq offset s inputs, 0 ≤ st.filteredValue := by
  intro inputs
  induction inputs with
  | nil =>
    intro s hs st hst
    simp only [stateTrace, List.mem_singleton] at hst
    exact hst ▸ hs
  | cons i rest ih =>
    intro s hs st hst
    simp only [stateTrace, List.mem_cons] at hst
    rcases hst with rfl | hmem
    · exact hs
    · exact ih _ (step_filtered_nonneg sq offset s i.1 i.2 hs) st hmem

/-- C10: in every reachable state the smoothed signal is non-negative, hence
the derived pressure is non-negative and can only fail the `0 < pressure`
guard by being exactly 0. -/
theorem spec_C10_filtered_nonneg (sq : ℚ → ℚ) (offset : ℚ) (t0 : ℕ)
    (inputs : List (ℚ × ℕ)) :
    ∀ st ∈ stateTrace sq offset (initState t0) inputs,
      0 ≤ st.filteredValue ∧ 0 ≤ pressurePa st.filteredValue ∧
      (pressurePa st.filteredValue ≤ 0 → pressurePa st.filteredValue = 0) := by
  intro st hst
  have h := trace_filtered_nonneg sq offset inputs (initState t0) (le_refl 0) st hst
  exact ⟨h, pressurePa_nonneg h, fun hle => le_antisymm hle (pressurePa_nonneg h)⟩

/-- Witness for C10 after one concrete tick leaving a residue in the filter. -/
theorem spec_C10_filtered_nonneg_witness :
    0 ≤ ((step sqApprox 0 (initState 0) 100 100).1).filteredValue :=
  (spec_C10_filtered_nonneg sqApprox 0 0 [(100, 100)]
    ((step sqApprox 0 (initState 0) 100 100).1) (by simp [stateTrace])).1

lemma step_idle_low {sq : ℚ → ℚ} {offset : ℚ} {s : SpiroState} {raw : ℚ} (now : ℕ)
    (hb : s.isBreathing = false) (hf : tickFlow sq offset s raw ≤ START_THRESHOLD) :
    step sq offset s raw now =
      (⟨conditioned offset s.filteredValue raw, now, s.breathStopTimer, s.currentVol,
        s.peakFlow, tickFlow sq offset s raw, false⟩, none) := by
  have hns : ¬ START_THRESHOLD < tickFlow sq offset s raw := not_lt.mpr hf
  by_cases hc : CUTOFF_THRESHOLD < tickFlow sq offset s raw
  · rw [step_high now hc]
    simp [hns, hb]
  · rw [step_low now (not_lt.mp hc)]
    have hnc : ¬ stopCond sq offset s raw now := fun h => absurd h.1 (by simp [hb])
    rw [if_neg hnc, hb]

/-- C8: from an Idle state, as long as every computed flow stays at or below
the start threshold, the run stays Idle, never changes the accumulated volume,
and emits no finalized-breath summary. -/
theorem spec_C8_idle_persists (sq : ℚ → ℚ) (offset : ℚ) :
    ∀ (inputs : List (ℚ × ℕ)) (s : SpiroState), s.isBreathing = false →
      (∀ f ∈ tickFlows sq offset s inputs, f ≤ START_THRESHOLD) →
      (∀ st ∈ stateTrace sq offset s inputs,
        st.isBreathing = false ∧ st.currentVol = s.currentVol) ∧
      (runTrace sq offset s inputs).2 = [] := by
  intro inputs
  induction inputs with
  | nil =>
    intro s hb hf
    refine ⟨?_, rfl⟩
    intro st hst
    simp only [stateTrace, List.mem_singleton] at hst
    subst hst
    exact ⟨hb, rfl⟩
  | cons i rest ih =>
    intro s hb hf
    have hcons : tickFlows sq offset s (i :: rest) =
        tickFlow sq offset s i.1 :: tickFlows sq offset (step sq offset s i.1 i.2).1 rest := rfl
    rw [hcons] at hf
    have hf0 : tickFlow sq offset s i.1 ≤ START_THRESHOLD :=
      hf _ (List.mem_cons_self _ _)
    have hstep := step_idle_low i.2 hb hf0
    have hb1 : ((step sq offset s i.1 i.2).1).isBreathing = false := by rw [hstep]
    have hfr : ∀ f ∈ tickFlows sq offset (step sq offset s i.1 i.2).1 rest,
        f ≤ START_THRESHOLD := fun f hmem => hf f (List.mem_cons_of_mem _ hmem)
    have ihr := ih (step sq offset s i.1 i.2).1 hb1 hfr
    have hv : ((step sq offset s i.1 i.2).1).currentVol = s.currentVol := by rw [hstep]
    constructor
    · intro st hst
      simp only [stateTrace, List.mem_cons] at hst
      rcases hst with rfl | hmem
      · exact ⟨hb, rfl⟩
      · have hih := ihr.1 st hmem
        exact ⟨hih.1, by rw [hih.2, hv]⟩
    · show (runTrace sq offset s (i :: rest)).2 = []
      have h2 := ihr.2
      rw [hstep] at h2
      simp only [runTrace]
      rw [hstep, h2]
      rfl

/-- Witness for C8: two ticks of constant raw = offset emit nothing. -/
theorem spec_C8_idle_persists_witness :
    (runTrace sqApprox 500 (initState 0) [(500, 100), (500, 200)]).2 = [] :=
  (spec_C8_idle_persists sqApprox 500 [(500, 100), (500, 200)] (initState 0) rfl
    (by with_unfolding_all decide)).2

lemma stepMulti_collapse (sq : ℚ → ℚ) (offset : ℚ) (s : SpiroState) (raw : ℚ) (now : ℕ) :
    stepMulti sq offset s raw ⟨now, now, now⟩ = step sq offset s raw now := rfl

lemma runTraceMulti_collapse (sq : ℚ → ℚ) (offset : ℚ) :
    ∀ (inputs : List (ℚ × ℕ)) (s : SpiroState),
      runTraceMulti sq offset s
          (List.map (fun i => (i.1, (⟨i.2, i.2, i.2⟩ : TickTimes))) inputs) =
        runTrace sq offset s inputs := by
  intro inputs
  induction inputs with
  | nil =>
    intro s
    rfl
  | cons i rest ih =>
    intro s
    simp only [List.map_cons, runTraceMulti, runTrace]
    rw [stepMulti_collapse, ih]

/-- C9 (amended): under the multi-read clock model, a tick whose three
`millis()` reads coincide behaves exactly like the single-timestamp tick, a
run whose reads all coincide with the tick timestamps equals the
single-timestamp run (so the claimed determinism holds exactly under the
read-once discipline), and every tick rebases `previousMillis` to its dt read,
making `dtSeconds` the delta between consecutive dt reads. -/
theorem spec_C9_clock_reads (sq : ℚ → ℚ) (offset : ℚ) :
    (∀ (s : SpiroState) (raw : ℚ) (t : TickTimes),
        t.tStart = t.tDt → t.tStop = t.tDt →
        stepMulti sq offset s raw t = step sq offset s raw t.tDt) ∧
    (∀ (s : SpiroState) (inputs : List (ℚ × ℕ)),
        runTraceMulti sq offset s
            (List.map (fun i => (i.1, (⟨i.2, i.2, i.2⟩ : TickTimes))) inputs) =
          runTrace sq offset s inputs) ∧
    (∀ (s : SpiroState) (raw : ℚ) (t : TickTimes),
        ((stepMulti sq offset s raw t).1).previousMillis = t.tDt) := by
  refine ⟨?_, ?_, ?_⟩
  · intro s raw t h1 h2
    have ht : t = ⟨t.tDt, t.tDt, t.tDt⟩ := by
      cases t
      simp_all
    rw [ht]
    exact stepMulti_collapse sq offset s raw t.tDt
  · intro s inputs
    exact runTraceMulti_collapse sq offset inputs s
  · intro s raw t
    simp only [stepMulti]
    split_ifs <;> rfl

/-- Witness for the amended C9: a tick with coincident reads equals the
single-timestamp tick at a concrete input. -/
theorem spec_C9_clock_reads_witness :
    stepMulti sqApprox 0 (initState 0) 41 ⟨200, 200, 200⟩ =
      step sqApprox 0 (initState 0) 41 200 :=
  (spec_C9_clock_reads sqApprox 0).1 (initState 0) 41 ⟨200, 200, 200⟩ rfl rfl

set_option maxRecDepth 100000 in
/-- C9 as stated is false on the code: the sketch reads `millis()` again in the
stop logic, so two runs that agree on every raw sample and on every per-tick dt
timestamp (with each tick's reads monotone within the tick) can still disagree
on the breath-state transition and the emissions — here the final tick's stop
read lands 10 ms later in one run, crossing the 1000 ms timeout boundary. -/
theorem spec_C9_counterexample :
    List.map Prod.fst jitterInputsA = List.map Prod.fst jitterInputsB ∧
    List.map (fun i => i.2.tDt) jitterInputsA =
      List.map (fun i => i.2.tDt) jitterInputsB ∧
    (∀ i ∈ jitterInputsA, i.2.tDt ≤ i.2.tStart ∧ i.2.tStart ≤ i.2.tStop) ∧
    (∀ i ∈ jitterInputsB, i.2.tDt ≤ i.2.tStart ∧ i.2.tStart ≤ i.2.tStop) ∧
    ((runTraceMulti sqApprox 0 (initState 0) jitterInputsA).1).isBreathing = true ∧
    ((runTraceMulti sqApprox 0 (initState 0) jitterInputsB).1).isBreathing = false ∧
    (runTraceMulti sqApprox 0 (initState 0) jitterInputsA).2 = [] ∧
    (runTraceMulti sqApprox 0 (initState 0) jitterInputsB).2 ≠ [] := by
  with_unfolding_all decide

end Spirometer
